import Mathlib

/-
Verification of the nsis bundling scripts (create_bundled_installer.py,
silent_installer.py, extract_repackage_installer.py) against their
natural-language specification.

Modelling conventions (shallow embedding):
- Python strings and filesystem paths are `List Char`; a path is its full
  string, with components separated by the character given below.
- Python `str.split(sep)` (nonempty sep) is `pySplit`, implemented with a
  structural fuel argument so that the kernel can evaluate it.
- Process execution, file existence, glob results, copy success and
  rmtree success are supplied by an `Env` record; every operation returns
  its result together with a trace of externally visible events.
- Fallible Python code returns `Except PyExc`; an uncaught Python
  exception is `Except.error`.
-/

namespace NsisRepack

/-- String literal to character list. -/
def chars (s : String) : List Char := s.toList

/-- First occurrence of `sep` in `s`, Python-style left-to-right scan:
returns the text before the occurrence and the text after it. -/
def firstSplit (sep : List Char) : List Char → Option (List Char × List Char)
  | [] => none
  | c :: rest =>
    if sep.isPrefixOf (c :: rest) then
      some ([], (c :: rest).drop sep.length)
    else
      match firstSplit sep rest with
      | none => none
      | some (pre, post) => some (c :: pre, post)

/-- Fuelled worker for `pySplit`; with fuel larger than the list length it
computes the Python `str.split(sep)` for a nonempty separator. -/
def pySplitFuel (sep : List Char) : Nat → List Char → List (List Char)
  | 0, s => [s]
  | fuel + 1, s =>
    match firstSplit sep s with
    | none => [s]
    | some (pre, post) => pre :: pySplitFuel sep fuel post

/-- Python `s.split(sep)` for a nonempty separator `sep`. -/
def pySplit (sep s : List Char) : List (List Char) :=
  pySplitFuel sep (s.length + 1) s

/-- Path separator of the model. -/
def sepChar : Char := '/'

/-- Components of a path string. -/
def pathComponents (p : List Char) : List (List Char) :=
  pySplit [sepChar] p

/-- Python `Path(p).name`: the last path component. -/
def pathName (p : List Char) : List Char :=
  (pathComponents p).getLastD []

/-- Python `Path(p).parent` (as a string; `"."` when there is no directory
part, matching `PurePath.parent` on a bare filename). -/
def pathParent (p : List Char) : List Char :=
  match (pathComponents p).dropLast with
  | [] => ['.']
  | cs => List.intercalate [sepChar] cs

/-- Python `dir / name`. -/
def pathJoin (d n : List Char) : List Char := d ++ sepChar :: n

/-- Outcome of handing a command to the operating system:
either the child process exits with a code, or the executable cannot be
launched at all (Python raises FileNotFoundError / OSError). -/
inductive ExecResult where
  | exited (code : Int)
  | launchFailure
deriving DecidableEq, Repr

/-- The Python exceptions the embedded code can surface. -/
inductive PyExc where
  | calledProcessError
  | fileNotFoundError
  | nameError (n : String)
  | osError
deriving DecidableEq, Repr

/-- Externally visible events of one operation, in order. -/
inductive Event where
  | exec (cmd : List (List Char))
  | copyTo (dst : List Char)
  | globSearch (dir pattern : List Char)
  | rmtreeAttempt (ok : Bool)
deriving DecidableEq, Repr

/-- The ambient world an operation runs in: process execution results,
file existence, glob matches, whether a copy to a destination succeeds,
whether directory-tree deletion succeeds, and the three directories the
locator searches. -/
structure Env where
  exec : List (List Char) → ExecResult
  fileExists : List Char → Bool
  copyOk : List Char → Bool
  rmtreeOk : Bool
  glob : List Char → List Char → List (List Char)
  cwd : List Char
  scriptDir : List Char
  parentDir : List Char

/-- Whether `subprocess.run(cmd, check=True)` completes without raising:
true exactly when the child exits with code 0.  A nonzero exit raises
CalledProcessError and a launch failure raises FileNotFoundError. -/
def checkOk (r : ExecResult) : Bool :=
  match r with
  | .exited c => c == 0
  | .launchFailure => false

/-- Command line built by `run_installer` (silent_installer.py lines 49-52):
the installer path followed, when silent, by `/quiet` then `/norestart`. -/
def run_installer_cmd (installerPath : List Char) (silent : Bool) : List (List Char) :=
  installerPath :: (if silent then [chars "/quiet", chars "/norestart"] else [])

/-- `run_installer` of silent_installer.py (lines 38-63): runs the command
with `check=True` and returns True on exit code 0; both a nonzero exit
(CalledProcessError) and a launch failure are caught and yield False. -/
def run_installer (env : Env) (installerPath : List Char) (silent : Bool) : Bool :=
  match env.exec (run_installer_cmd installerPath silent) with
  | .exited c => c == 0
  | .launchFailure => false

/-- Installer filename expected by silent_installer.py line 78. -/
def origScrmName : List Char := chars "SCRM Champion-v4.85.1-win32-x64.exe"

/-- Installer filename expected by silent_installer.py line 79. -/
def origSdkName : List Char := chars "winsdksetup.exe"

/-- Filename under which create_bundled_installer.py line 223 stages the
first installer in the bundler workspace. -/
def stagedScrmName : List Char := chars "SCRM_Champion.exe"

/-- Filename under which create_bundled_installer.py line 224 stages the
second installer in the bundler workspace. -/
def stagedSdkName : List Char := chars "winsdksetup.exe"

/-- Filename the generated embedded script looks up in its own directory
(create_bundled_installer.py heredoc line 170). -/
def genScrmName : List Char := chars "SCRM_Champion.exe"

/-- Filename the generated embedded script looks up in its own directory
(create_bundled_installer.py heredoc line 171). -/
def genSdkName : List Char := chars "winsdksetup.exe"

/-- The `main` of silent_installer.py (lines 65-119), parameterised by the
two installer filenames: the generated script written by
create_python_bundler (heredoc lines 157-211) is this same code with the
staged filenames instead of the original ones.  `sd` is the script
directory and `td` the freshly created temporary directory.  The copies
at lines 95-96 go to `temp_dir / installer.name`; since both filenames
are bare file names, `(script_dir / n).name` is `n` itself.  The whole
body sits in `try ... except Exception: return 1` and a `finally` block
whose `shutil.rmtree` is itself guarded by `try/except`. -/
def silentMainWith (n1 n2 : List Char) (env : Env) (sd td : List Char) :
    Except PyExc Int × List Event :=
  let scrmInstaller := pathJoin sd n1
  let sdkInstaller := pathJoin sd n2
  let tempScrm := pathJoin td n1
  let tempSdk := pathJoin td n2
  let body : Except PyExc Int × List Event :=
    if env.fileExists scrmInstaller then
      if env.fileExists sdkInstaller then
        if env.copyOk tempScrm then
          if env.copyOk tempSdk then
            if run_installer env tempScrm false then
              (.ok 0,
               [.copyTo tempScrm, .copyTo tempSdk,
                .exec (run_installer_cmd tempScrm false),
                .exec (run_installer_cmd tempSdk true)])
            else
              (.ok 1,
               [.copyTo tempScrm, .copyTo tempSdk,
                .exec (run_installer_cmd tempScrm false)])
          else (.error .osError, [.copyTo tempScrm, .copyTo tempSdk])
        else (.error .osError, [.copyTo tempScrm])
      else (.ok 1, [])
    else (.ok 1, [])
  (match body.1 with
   | .ok c => .ok c
   | .error _ => .ok 1,
   body.2 ++ [.rmtreeAttempt env.rmtreeOk])

/-- `main` of silent_installer.py with its hard-coded filenames. -/
def silent_installer_main (env : Env) (sd td : List Char) :
    Except PyExc Int × List Event :=
  silentMainWith origScrmName origSdkName env sd td

/-- Install-time behaviour of the script generated by
create_python_bundler: the same `main`, looking up the staged names. -/
def generated_installer_main (env : Env) (sd td : List Char) :
    Except PyExc Int × List Event :=
  silentMainWith genScrmName genSdkName env sd td

/-- Section body of the NSIS wrapper script generated by
create_nsis_bundler (create_bundled_installer.py lines 360-366): ExecWait
of the first installer recording its exit code in register 0, and, only
when that code equals 0, ExecWait of the second with `/quiet /norestart`.
Returns the list of commands the section executes, in order. -/
def nsisWrapperSection (exitFirst : Int) (instDir scrmName sdkName : List Char) :
    List (List (List Char)) :=
  let firstCmd := [pathJoin instDir scrmName]
  let secondCmd := [pathJoin instDir sdkName, chars "/quiet", chars "/norestart"]
  if exitFirst == 0 then [firstCmd, secondCmd] else [firstCmd]

/-- Glob pattern for the first installer
(create_bundled_installer.py line 61, extract_repackage_installer.py line 60). -/
def scrmPattern : List Char := chars "*SCRM*Champion*.exe"

/-- Glob pattern for the second installer
(create_bundled_installer.py line 74, extract_repackage_installer.py line 73). -/
def sdkPattern : List Char := chars "*winsdksetup*.exe"

/-- The ordered directory list searched by the locator: current directory,
script directory, parent directory. -/
def searchDirs (env : Env) : List (List Char) := [env.cwd, env.scriptDir, env.parentDir]

/-- One locator search: per directory, the first glob match wins; an empty
match list moves on to the next directory; no match anywhere yields none. -/
def searchLoop (env : Env) (pattern : List Char) :
    List (List Char) → Option (List Char) × List Event
  | [] => (none, [])
  | d :: rest =>
    match (env.glob d pattern).head? with
    | some f => (some f, [.globSearch d pattern])
    | none =>
      let r := searchLoop env pattern rest
      (r.1, .globSearch d pattern :: r.2)

/-- `find_installers` (create_bundled_installer.py lines 52-83 and, inside
RepackageTool, extract_repackage_installer.py lines 51-82): an explicitly
supplied argument is wrapped as a Path and returned as is; an omitted one
is searched for with the fixed glob pattern over the three directories. -/
def find_installers (env : Env) (scrmArg sdkArg : Option (List Char)) :
    (Option (List Char) × Option (List Char)) × List Event :=
  let s :=
    match scrmArg with
    | none => searchLoop env scrmPattern (searchDirs env)
    | some p => (some p, [])
  let k :=
    match sdkArg with
    | none => searchLoop env sdkPattern (searchDirs env)
    | some p => (some p, [])
  ((s.1, k.1), s.2 ++ k.2)

/-- First delimiter token of the version extraction
(create_bundled_installer.py line 90, extract_repackage_installer.py line 89). -/
def scrmToken : List Char := chars "SCRM Champion-"

/-- Second delimiter token of the version extraction. -/
def winToken : List Char := chars "-win"

/-- `version_match` of create_output_path:
`filename.split("SCRM Champion-")[1].split("-win")[0]` when the first
token occurs in the filename, and the literal `"latest"` otherwise. -/
def version_match (filename : List Char) : List Char :=
  if (firstSplit scrmToken filename).isSome then
    (pySplit winToken ((pySplit scrmToken filename).getD 1 [])).getD 0 []
  else chars "latest"

/-- The fixed output-filename template. -/
def outputTemplate (version : List Char) : List Char :=
  chars "SCRM Champion-" ++ version ++ chars "-with-SDK-win32-x64.exe"

/-- `create_output_path` (create_bundled_installer.py lines 85-98,
identical method at extract_repackage_installer.py lines 84-98): an
explicit output path is wrapped as a Path and returned; otherwise the
output is `scrm_path.parent / template(version)`. -/
def create_output_path (scrmPath : List Char) (outputPath : Option (List Char)) :
    List Char :=
  match outputPath with
  | some o => o
  | none => pathJoin (pathParent scrmPath) (outputTemplate (version_match (pathName scrmPath)))

/-- Top-level names bound in the create_bundled_installer.py module: the
modules and names it pulls in (lines 15-23) and the functions and logger
it defines.  `base64` is not among them — the module never binds base64
at all, although line 268 writes the text of such a binding into the
generated output file. -/
def bundlerModuleNames : List String :=
  ["os", "sys", "shutil", "tempfile", "argparse", "subprocess", "logging",
   "Path", "datetime", "logger", "parse_arguments", "find_installers",
   "create_output_path", "create_python_bundler", "create_nsis_bundler", "main"]

/-- Python name resolution inside create_bundled_installer.py: a name not
bound at module level raises NameError. -/
def lookupName (n : String) : Except PyExc Unit :=
  if n ∈ bundlerModuleNames then .ok () else .error (.nameError n)

/-- The simple-bundled-installer fallback of create_python_bundler
(lines 252-310): after the warning it opens the output file, writes the
header and the embedded script text, and then evaluates the expression
`base64.b64encode(f.read())` at line 273, which resolves the module-level
name `base64`.  Were that name bound, it would go on to write both
encoded payloads and the extraction trailer, chmod the file, and leave
the output path as the result of the enclosing call. -/
def pythonFallback (outputPath : List Char) : Except PyExc (List Char) :=
  match lookupName "base64" with
  | .ok _ => .ok outputPath
  | .error e => .error e

/-- `["7z", "--help"]` (create_bundled_installer.py line 231). -/
def cmd7zHelp : List (List Char) := [chars "7z", chars "--help"]

/-- `["7z", "a", archive, temp_dir/*]` (line 235). -/
def cmd7zAdd (td : List Char) : List (List Char) :=
  [chars "7z", chars "a", pathJoin td (chars "installer.7z"), td ++ chars "/*"]

/-- The `copy /b` concatenation of stub, config and archive (line 249). -/
def cmdSfxConcat (td out : List Char) : List (List Char) :=
  [chars "copy", chars "/b", chars "7zS.sfx", chars "+",
   pathJoin td (chars "config.txt"), chars "+",
   pathJoin td (chars "installer.7z"), out]

/-- `create_python_bundler` (create_bundled_installer.py lines 100-320):
writes the generated script and batch file into the workspace `td`,
copies the two installers in under the staged names, then tries the 7-Zip
self-extracting route; CalledProcessError or FileNotFoundError from any
of the three external commands is caught (line 252) and control falls to
`pythonFallback`.  A copy failure propagates (the outer `try` has only a
`finally`).  The `finally` deletes the workspace inside its own
`try/except`, so a deletion failure never escapes; the function returns
the output path. -/
def create_python_bundler (env : Env) (scrmPath sdkPath outputPath td : List Char) :
    Except PyExc (List Char) × List Event :=
  let scrmTemp := pathJoin td stagedScrmName
  let sdkTemp := pathJoin td stagedSdkName
  let body : Except PyExc (List Char) × List Event :=
    if env.copyOk scrmTemp then
      if env.copyOk sdkTemp then
        if checkOk (env.exec cmd7zHelp) then
          if checkOk (env.exec (cmd7zAdd td)) then
            if checkOk (env.exec (cmdSfxConcat td outputPath)) then
              (.ok outputPath,
               [.copyTo scrmTemp, .copyTo sdkTemp, .exec cmd7zHelp,
                .exec (cmd7zAdd td), .exec (cmdSfxConcat td outputPath)])
            else
              (pythonFallback outputPath,
               [.copyTo scrmTemp, .copyTo sdkTemp, .exec cmd7zHelp,
                .exec (cmd7zAdd td), .exec (cmdSfxConcat td outputPath)])
          else
            (pythonFallback outputPath,
             [.copyTo scrmTemp, .copyTo sdkTemp, .exec cmd7zHelp,
              .exec (cmd7zAdd td)])
        else
          (pythonFallback outputPath,
           [.copyTo scrmTemp, .copyTo sdkTemp, .exec cmd7zHelp])
      else (.error .osError, [.copyTo scrmTemp, .copyTo sdkTemp])
    else (.error .osError, [.copyTo scrmTemp])
  (body.1, body.2 ++ [.rmtreeAttempt env.rmtreeOk])

/-- The makensis invocation of create_nsis_bundler (line 384). -/
def cmdMakensis (td : List Char) : List (List Char) :=
  [chars "makensis", pathJoin td (chars "wrapper_installer.nsi")]

/-- `create_nsis_bundler` (create_bundled_installer.py lines 322-401):
writes the NSIS wrapper script into the workspace and runs makensis.
Both CalledProcessError and FileNotFoundError are caught and turn the
result into None; no other strategy is tried.  The `finally` deletes the
workspace inside its own `try/except`. -/
def create_nsis_bundler (env : Env) (scrmPath sdkPath outputPath td : List Char) :
    Except PyExc (Option (List Char)) × List Event :=
  (if checkOk (env.exec (cmdMakensis td)) then .ok (some outputPath) else .ok none,
   [.exec (cmdMakensis td), .rmtreeAttempt env.rmtreeOk])

/-- Command-line arguments of create_bundled_installer.py (lines 36-50). -/
structure Args where
  scrmInstaller : Option (List Char)
  sdkInstaller : Option (List Char)
  output : Option (List Char)
  nsis : Bool

/-- `main` of create_bundled_installer.py (lines 403-442): locate the
installers (missing one: exit 1), derive the output path, then run
exactly one strategy — NSIS when `--nsis` is given, the Python bundler
otherwise — and map a truthy result to exit 0 and None to exit 1. -/
def create_bundled_main (env : Env) (args : Args) (td : List Char) :
    Except PyExc Int × List Event :=
  let fi := find_installers env args.scrmInstaller args.sdkInstaller
  match fi.1.1 with
  | none => (.ok 1, fi.2)
  | some scrmPath =>
    match fi.1.2 with
    | none => (.ok 1, fi.2)
    | some sdkPath =>
      let outputPath := create_output_path scrmPath args.output
      if args.nsis then
        let r := create_nsis_bundler env scrmPath sdkPath outputPath td
        (match r.1 with
         | .error e => .error e
         | .ok (some _) => .ok 0
         | .ok none => .ok 1,
         fi.2 ++ r.2)
      else
        let r := create_python_bundler env scrmPath sdkPath outputPath td
        (match r.1 with
         | .error e => .error e
         | .ok _ => .ok 0,
         fi.2 ++ r.2)

/-- The 7z extraction command of extract_scrm_installer (line 112). -/
def cmd7zExtract (extractDir scrmPath : List Char) : List (List Char) :=
  [chars "7z", chars "x", chars "-o" ++ extractDir, scrmPath, chars "-y"]

/-- The nested app-64.7z extraction command (line 127). -/
def cmd7zExtractApp (appDir app7z : List Char) : List (List Char) :=
  [chars "7z", chars "x", chars "-o" ++ appDir, app7z, chars "-y"]

/-- `extract_scrm_installer` (extract_repackage_installer.py lines
100-147): extracts the first installer into a fresh directory and, when
`$PLUGINSDIR/app-64.7z` is present, extracts that too; on success it
returns the directory WITHOUT deleting it (the caller owns cleanup).  In
both `except` handlers (lines 138-147) the `shutil.rmtree(extract_dir)`
call is NOT guarded, so when the deletion itself fails the OSError
propagates out of the function instead of the handler returning None. -/
def extract_scrm_installer (env : Env) (scrmPath extractDir : List Char) :
    Except PyExc (Option (List Char)) × List Event :=
  if checkOk (env.exec (cmd7zExtract extractDir scrmPath)) then
    let app7z := pathJoin (pathJoin extractDir (chars "$PLUGINSDIR")) (chars "app-64.7z")
    if env.fileExists app7z then
      let appDir := pathJoin extractDir (chars "app")
      if checkOk (env.exec (cmd7zExtractApp appDir app7z)) then
        (.ok (some extractDir),
         [.exec (cmd7zExtract extractDir scrmPath), .exec (cmd7zExtractApp appDir app7z)])
      else
        (if env.rmtreeOk then .ok none else .error .osError,
         [.exec (cmd7zExtract extractDir scrmPath), .exec (cmd7zExtractApp appDir app7z),
          .rmtreeAttempt env.rmtreeOk])
    else
      (.ok (some extractDir), [.exec (cmd7zExtract extractDir scrmPath)])
  else
    (if env.rmtreeOk then .ok none else .error .osError,
     [.exec (cmd7zExtract extractDir scrmPath), .rmtreeAttempt env.rmtreeOk])

/-- The makensis invocation of create_direct_nsis_installer (line 235). -/
def cmdMakensisDirect (td : List Char) : List (List Char) :=
  [chars "makensis", pathJoin td (chars "direct_installer.nsi")]

/-- `create_direct_nsis_installer` (extract_repackage_installer.py lines
149-252): writes the direct NSIS script (whose SDK ExecWait line carries
`/quiet /norestart` only when `silentSdk` is set, line 163) and runs
makensis; CalledProcessError and FileNotFoundError both turn the result
into None with no fallback.  The `finally` deletes the script workspace
inside its own `try/except`. -/
def create_direct_nsis_installer (env : Env)
    (extractDir sdkPath outputPath : List Char) (silentSdk : Bool) (td : List Char) :
    Except PyExc (Option (List Char)) × List Event :=
  (if checkOk (env.exec (cmdMakensisDirect td)) then .ok (some outputPath) else .ok none,
   [.exec (cmdMakensisDirect td), .rmtreeAttempt env.rmtreeOk])

/-- `extract_and_repackage` (extract_repackage_installer.py lines
254-311): locate, derive output path, extract, then build the direct
NSIS installer under a `try` whose `finally` deletes the extraction
directory inside its own `try/except`.  An exception escaping
extract_scrm_installer is not caught anywhere here and propagates. -/
def extract_and_repackage (env : Env)
    (scrmArg sdkArg outArg : Option (List Char)) (silentSdk : Bool)
    (extractDir nsisTd : List Char) : Except PyExc Int × List Event :=
  let fi := find_installers env scrmArg sdkArg
  match fi.1.1 with
  | none => (.ok 1, fi.2)
  | some scrmPath =>
    match fi.1.2 with
    | none => (.ok 1, fi.2)
    | some sdkPath =>
      let outputPath := create_output_path scrmPath outArg
      let ex := extract_scrm_installer env scrmPath extractDir
      match ex.1 with
      | .error e => (.error e, fi.2 ++ ex.2)
      | .ok none => (.ok 1, fi.2 ++ ex.2)
      | .ok (some ed) =>
        let dn := create_direct_nsis_installer env ed sdkPath outputPath silentSdk nsisTd
        let ev := fi.2 ++ ex.2 ++ dn.2 ++ [.rmtreeAttempt env.rmtreeOk]
        match dn.1 with
        | .error e => (.error e, ev)
        | .ok (some _) => (.ok 0, ev)
        | .ok none => (.ok 1, ev)

/-- A list is a Boolean prefix of itself followed by anything. -/
theorem isPrefixOf_append_self (l t : List Char) : l.isPrefixOf (l ++ t) = true := by
  induction l with
  | nil => simp [List.isPrefixOf]
  | cons c l ih => simp [List.isPrefixOf, ih]

/-- The first occurrence of a nonempty separator in `sep ++ t` is at the
very front. -/
theorem firstSplit_append_left (sep t : List Char) (h : sep ≠ []) :
    firstSplit sep (sep ++ t) = some ([], t) := by
  cases sep with
  | nil => exact absurd rfl h
  | cons c s =>
    show firstSplit (c :: s) (c :: (s ++ t)) = some ([], t)
    have hp : (c :: s).isPrefixOf (c :: (s ++ t)) = true :=
      isPrefixOf_append_self (c :: s) t
    simp only [firstSplit, hp, if_true]
    simp [List.drop_left]

/-- With positive fuel and no occurrence of the separator, the fuelled
split returns the whole string. -/
theorem pySplitFuel_pos_none {sep s : List Char} {f : Nat} (hf : 0 < f)
    (h : firstSplit sep s = none) : pySplitFuel sep f s = [s] := by
  cases f with
  | zero => exact absurd hf (by simp)
  | succ g => simp [pySplitFuel, h]

/-- One step of the fuelled split at an occurrence of the separator. -/
theorem pySplitFuel_succ_some {sep s pre post : List Char} {f : Nat}
    (h : firstSplit sep s = some (pre, post)) :
    pySplitFuel sep (f + 1) s = pre :: pySplitFuel sep f post := by
  simp [pySplitFuel, h]

/-- Splitting `sep ++ tail` on a nonempty `sep` that does not occur in
`tail` yields exactly the empty part and `tail`. -/
theorem pySplit_token_front {sep tail : List Char} (hsep : sep ≠ [])
    (h : firstSplit sep tail = none) :
    pySplit sep (sep ++ tail) = [[], tail] := by
  have h0 : firstSplit sep (sep ++ tail) = some ([], tail) :=
    firstSplit_append_left sep tail hsep
  show pySplitFuel sep ((sep ++ tail).length + 1) (sep ++ tail) = [[], tail]
  rw [pySplitFuel_succ_some h0]
  have hpos : 0 < (sep ++ tail).length := by
    cases sep with
    | nil => exact absurd rfl hsep
    | cons a b => simp
  rw [pySplitFuel_pos_none hpos h]

/-- C4: Output path derivation.  When no explicit output path is given,
create_output_path substitutes into the template
`SCRM Champion-{version}-with-SDK-win32-x64.exe` the segment of the
filename lying between the first `SCRM Champion-` token and the first
following `-win` token (first conjunct: any filename whose name is
`SCRM Champion-` followed by a tail in which the first token does not
recur and whose first `-win` occurrence delimits the version `v`), and
uses the literal `latest` when the filename does not contain the
`SCRM Champion-` token at all (second conjunct). -/
theorem create_output_path_version_extraction :
    (∀ p tail v rest : List Char,
      pathName p = scrmToken ++ tail →
      firstSplit scrmToken tail = none →
      firstSplit winToken tail = some (v, rest) →
      create_output_path p none = pathJoin (pathParent p) (outputTemplate v))
    ∧ (∀ p : List Char,
      (firstSplit scrmToken (pathName p)).isSome = false →
      create_output_path p none = pathJoin (pathParent p) (outputTemplate (chars "latest"))) := by
  constructor
  · intro p tail v rest hn h1 h2
    have hc : firstSplit scrmToken (scrmToken ++ tail) = some ([], tail) :=
      firstSplit_append_left _ _ (by decide)
    have hs1 : pySplit scrmToken (scrmToken ++ tail) = [[], tail] :=
      pySplit_token_front (by decide) h1
    have hs2 : pySplit winToken tail = v :: pySplitFuel winToken tail.length rest := by
      show pySplitFuel winToken (tail.length + 1) tail = _
      rw [pySplitFuel_succ_some h2]
    have hv : version_match (scrmToken ++ tail) = v := by
      unfold version_match
      rw [hc]
      simp [hs1, hs2]
    simp [create_output_path, hn, hv]
  · intro p h
    simp [create_output_path, version_match, h]

/-- Concrete filename for the C4 witness. -/
def c4FileA : List Char := chars "rel/SCRM Champion-v4.85.1-win32-x64.exe"

/-- Tail of the C4 witness filename after the first token. -/
def c4TailA : List Char := chars "v4.85.1-win32-x64.exe"

/-- Witness for C4: the concrete filename of the spec example yields
version `v4.85.1`, and a filename without the token yields `latest`. -/
theorem create_output_path_version_extraction_witness :
    pathName c4FileA = scrmToken ++ c4TailA
    ∧ create_output_path c4FileA none
        = pathJoin (pathParent c4FileA) (outputTemplate (chars "v4.85.1"))
    ∧ create_output_path (chars "app.exe") none
        = pathJoin (pathParent (chars "app.exe")) (outputTemplate (chars "latest")) :=
  ⟨by decide,
   create_output_path_version_extraction.1 c4FileA c4TailA
     (chars "v4.85.1") (chars "32-x64.exe") (by decide) (by decide) (by decide),
   create_output_path_version_extraction.2 (chars "app.exe") (by decide)⟩

/-- C8: run_installer command construction and result.  With silent=True
the executed command is the installer path followed by exactly `/quiet`
then `/norestart`; with silent=False it is the bare path; the call
returns True exactly when the child process exits with code 0, and
returns False rather than propagating on a launch failure. -/
theorem run_installer_cmd_and_result :
    ∀ (env : Env) (p : List Char),
      run_installer_cmd p true = [p, chars "/quiet", chars "/norestart"]
      ∧ run_installer_cmd p false = [p]
      ∧ (∀ s : Bool,
          run_installer env p s = true ↔ env.exec (run_installer_cmd p s) = .exited 0) := by
  intro env p
  refine ⟨rfl, rfl, ?_⟩
  intro s
  unfold run_installer
  cases hE : env.exec (run_installer_cmd p s) with
  | exited c => simp
  | launchFailure => simp

/-- C9: the locator performs no existence validation on explicit inputs:
whatever the environment (in particular whatever `fileExists` says),
explicitly supplied paths are wrapped as Paths and returned verbatim,
and the empty event trace shows that no directory search is performed. -/
theorem find_installers_explicit_verbatim :
    ∀ (env : Env) (s k : List Char),
      find_installers env (some s) (some k) = ((some s, some k), []) := by
  intro env s k
  rfl

/-- C6: locator zero-match behaviour.  When a path argument is omitted
and the glob pattern matches nothing in any of the three searched
directories, the corresponding slot of the result is `none`; the model
is a total function, mirroring that the source raises nothing on zero
matches. -/
theorem find_installers_zero_match_none :
    ∀ (env : Env) (scrmArg sdkArg : Option (List Char)),
      (env.glob env.cwd scrmPattern = [] →
       env.glob env.scriptDir scrmPattern = [] →
       env.glob env.parentDir scrmPattern = [] →
       ((find_installers env none sdkArg).1).1 = none)
      ∧ (env.glob env.cwd sdkPattern = [] →
         env.glob env.scriptDir sdkPattern = [] →
         env.glob env.parentDir sdkPattern = [] →
         ((find_installers env scrmArg none).1).2 = none) := by
  intro env scrmArg sdkArg
  constructor
  · intro h1 h2 h3
    simp [find_installers, searchDirs, searchLoop, h1, h2, h3]
  · intro h1 h2 h3
    cases scrmArg <;> simp [find_installers, searchDirs, searchLoop, h1, h2, h3]

/-- Environment for the C6 witness: every glob comes back empty. -/
def c6Env : Env :=
  { exec := fun _ => .exited 0, fileExists := fun _ => false,
    copyOk := fun _ => true, rmtreeOk := true, glob := fun _ _ => [],
    cwd := chars "/w", scriptDir := chars "/s", parentDir := chars "/p" }

/-- Witness for C6 at a concrete empty-glob environment. -/
theorem find_installers_zero_match_none_witness :
    ((find_installers c6Env none none).1).1 = none
    ∧ ((find_installers c6Env none none).1).2 = none :=
  ⟨(find_installers_zero_match_none c6Env none none).1 rfl rfl rfl,
   (find_installers_zero_match_none c6Env none none).2 rfl rfl rfl⟩

/-- C5: when the first installer exits 0, the overall install returns
exit status 0 whatever the second installer does — its command result is
never consulted for the return value. -/
theorem silent_main_second_failure_not_fatal :
    ∀ (env : Env) (sd td : List Char),
      env.fileExists (pathJoin sd origScrmName) = true →
      env.fileExists (pathJoin sd origSdkName) = true →
      env.copyOk (pathJoin td origScrmName) = true →
      env.copyOk (pathJoin td origSdkName) = true →
      env.exec (run_installer_cmd (pathJoin td origScrmName) false) = .exited 0 →
      (silent_installer_main env sd td).1 = .ok 0 := by
  intro env sd td h1 h2 h3 h4 h5
  simp [silent_installer_main, silentMainWith, run_installer, h1, h2, h3, h4, h5]

/-- Environment for the C5 witness: the first installer exits 0, every
other command (in particular the silent SDK install) exits 1. -/
def c5Env : Env :=
  { exec := fun c =>
      if c = run_installer_cmd (pathJoin (chars "/t") origScrmName) false
      then .exited 0 else .exited 1,
    fileExists := fun _ => true, copyOk := fun _ => true, rmtreeOk := true,
    glob := fun _ _ => [],
    cwd := chars "/w", scriptDir := chars "/s", parentDir := chars "/p" }

/-- Witness for C5: with a failing second installer the exit status is
still 0. -/
theorem silent_main_second_failure_not_fatal_witness :
    (silent_installer_main c5Env (chars "/s") (chars "/t")).1 = .ok 0 :=
  silent_main_second_failure_not_fatal c5Env (chars "/s") (chars "/t")
    rfl rfl rfl rfl (by decide)

/-- C1: install-time sequencing invariant.  First conjunct, for the
sequencing script: in every environment, the number of invocations of
the second (SDK) installer command equals 1 exactly when the first
installer command was invoked and its process exited 0, and equals 0
otherwise — so a nonzero exit or a launch failure of the first installer
means the second is never invoked.  Second conjunct, for the generated
NSIS wrapper section: the silent SDK command is executed exactly once
when the recorded exit code of the first ExecWait is 0 and never
otherwise. -/
theorem second_installer_iff_first_success :
    ∀ (env : Env) (sd td : List Char),
      (List.count (Event.exec (run_installer_cmd (pathJoin td origSdkName) true))
          (silent_installer_main env sd td).2
        = if Event.exec (run_installer_cmd (pathJoin td origScrmName) false)
               ∈ (silent_installer_main env sd td).2
             ∧ env.exec (run_installer_cmd (pathJoin td origScrmName) false) = .exited 0
          then 1 else 0)
      ∧ (∀ (c : Int) (instDir a b : List Char),
          List.count [pathJoin instDir b, chars "/quiet", chars "/norestart"]
            (nsisWrapperSection c instDir a b) = if c = 0 then 1 else 0) := by
  intro env sd td
  constructor
  · cases h1 : env.fileExists (pathJoin sd origScrmName) with
    | false => simp [silent_installer_main, silentMainWith, run_installer_cmd, h1]
    | true =>
      cases h2 : env.fileExists (pathJoin sd origSdkName) with
      | false => simp [silent_installer_main, silentMainWith, run_installer_cmd, h1, h2]
      | true =>
        cases h3 : env.copyOk (pathJoin td origScrmName) with
        | false => simp [silent_installer_main, silentMainWith, run_installer_cmd, h1, h2, h3]
        | true =>
          cases h4 : env.copyOk (pathJoin td origSdkName) with
          | false => simp [silent_installer_main, silentMainWith, run_installer_cmd, h1, h2, h3, h4]
          | true =>
            cases hE : env.exec [pathJoin td origScrmName] with
            | launchFailure =>
              simp [silent_installer_main, silentMainWith, run_installer,
                    run_installer_cmd, h1, h2, h3, h4, hE]
            | exited c =>
              by_cases hc : c = 0
              · subst hc
                simp [silent_installer_main, silentMainWith, run_installer,
                      run_installer_cmd, h1, h2, h3, h4, hE]
              · simp [silent_installer_main, silentMainWith, run_installer,
                      run_installer_cmd, h1, h2, h3, h4, hE, hc]
  · intro c instDir a b
    by_cases hc : c = 0
    · subst hc
      simp [nsisWrapperSection]
    · simp [nsisWrapperSection, hc]

/-- C10: generator and generated-script filename consistency.  The names
under which create_python_bundler stages the two installers in its
workspace are exactly the names the generated embedded script looks up
in its own directory (first two conjuncts); the bundler indeed stages
copies under those names (third conjunct); and when the generated script
runs from a directory holding files under the staged names, its
existence checks pass and it reaches the invocation of the first staged
installer (fourth conjunct). -/
theorem staged_names_match_generated_script :
    stagedScrmName = genScrmName
    ∧ stagedSdkName = genSdkName
    ∧ (∀ (env : Env) (p q o td : List Char),
        env.copyOk (pathJoin td stagedScrmName) = true →
        env.copyOk (pathJoin td stagedSdkName) = true →
        Event.copyTo (pathJoin td stagedScrmName) ∈ (create_python_bundler env p q o td).2
        ∧ Event.copyTo (pathJoin td stagedSdkName) ∈ (create_python_bundler env p q o td).2)
    ∧ (∀ (env : Env) (iDir td : List Char),
        env.fileExists (pathJoin iDir stagedScrmName) = true →
        env.fileExists (pathJoin iDir stagedSdkName) = true →
        env.copyOk (pathJoin td stagedScrmName) = true →
        env.copyOk (pathJoin td stagedSdkName) = true →
        Event.exec (run_installer_cmd (pathJoin td genScrmName) false)
          ∈ (generated_installer_main env iDir td).2) := by
  refine ⟨rfl, rfl, ?_, ?_⟩
  · intro env p q o td h1 h2
    constructor <;>
    · simp only [create_python_bundler, h1, h2, if_true]
      split_ifs <;> simp
  · intro env iDir td h1 h2 h3 h4
    cases hR : run_installer env (pathJoin td genScrmName) false <;>
      simp [generated_installer_main, silentMainWith, genScrmName, genSdkName,
            stagedScrmName, stagedSdkName] at h1 h2 h3 h4 hR ⊢ <;>
      simp [h1, h2, h3, h4, hR]

/-- C2: environment where 7-Zip is absent — running `7z --help` raises
FileNotFoundError — and everything else succeeds. -/
def c2Env : Env :=
  { exec := fun c => if c = cmd7zHelp then .launchFailure else .exited 0,
    fileExists := fun _ => true, copyOk := fun _ => true, rmtreeOk := true,
    glob := fun _ _ => [],
    cwd := chars "/w", scriptDir := chars "/s", parentDir := chars "/p" }

/-- C2: when the archiving tool is absent (or any of the three archive
commands fails), control reaches the simple-bundled-installer fallback,
and the fallback raises NameError on the unbound module name `base64`
(create_bundled_installer.py line 273; the module has no base64 import),
so create_python_bundler ends in an uncaught exception instead of
writing the simple bundled installer and returning the output path. -/
theorem python_fallback_raises_missing_base64 :
    ∀ (env : Env) (p q o td : List Char),
      env.copyOk (pathJoin td stagedScrmName) = true →
      env.copyOk (pathJoin td stagedSdkName) = true →
      env.exec cmd7zHelp = .launchFailure →
      (create_python_bundler env p q o td).1 = .error (.nameError "base64") := by
  intro env p q o td h1 h2 h3
  simp [create_python_bundler, h1, h2, h3, checkOk, pythonFallback,
        lookupName, bundlerModuleNames]

/-- Witness for C2 at a concrete environment with 7-Zip absent. -/
theorem python_fallback_raises_missing_base64_witness :
    (create_python_bundler c2Env (chars "/a.exe") (chars "/b.exe")
        (chars "/out.exe") (chars "/t")).1 = .error (.nameError "base64") :=
  python_fallback_raises_missing_base64 c2Env (chars "/a.exe") (chars "/b.exe")
    (chars "/out.exe") (chars "/t") rfl rfl (by decide)

/-- Witness for C10: a concrete staged directory and arbitrary-free
environment in which the generated script reaches its first installer
invocation, and the bundler stages both names. -/
def c10Env : Env :=
  { exec := fun _ => .exited 0,
    fileExists := fun f =>
      f == pathJoin (chars "/i") stagedScrmName || f == pathJoin (chars "/i") stagedSdkName,
    copyOk := fun _ => true, rmtreeOk := true, glob := fun _ _ => [],
    cwd := chars "/w", scriptDir := chars "/i", parentDir := chars "/p" }

/-- Witness for C10 at the concrete environment. -/
theorem staged_names_match_generated_script_witness :
    (Event.copyTo (pathJoin (chars "/t") stagedScrmName)
       ∈ (create_python_bundler c10Env (chars "/a.exe") (chars "/b.exe")
            (chars "/o.exe") (chars "/t")).2)
    ∧ Event.exec (run_installer_cmd (pathJoin (chars "/t") genScrmName) false)
        ∈ (generated_installer_main c10Env (chars "/i") (chars "/t")).2 :=
  ⟨(staged_names_match_generated_script.2.2.1 c10Env (chars "/a.exe") (chars "/b.exe")
      (chars "/o.exe") (chars "/t") rfl rfl).1,
   staged_names_match_generated_script.2.2.2 c10Env (chars "/i") (chars "/t")
     (by decide) (by decide) rfl rfl⟩

/-- C3 (amended): workspace cleanup.  In the four operations that clean
up through a `finally` block whose rmtree sits in its own `try/except` —
the silent installer main (and hence the generated script), the Python
bundler, both NSIS builders — a deletion attempt appears on every exit
path and the result is independent of whether the deletion succeeds
(conjuncts 1-4).  In extract_scrm_installer, however, the error-path
rmtree calls are unguarded: when the extraction command fails and the
deletion also fails, the OSError propagates out of the function
(conjunct 5), contradicting the original never-escalates claim. -/
theorem workspace_cleanup_amended :
    (∀ (n1 n2 : List Char) (env : Env) (sd td : List Char) (b : Bool),
      Event.rmtreeAttempt env.rmtreeOk ∈ (silentMainWith n1 n2 env sd td).2
      ∧ (silentMainWith n1 n2 { env with rmtreeOk := b } sd td).1
          = (silentMainWith n1 n2 env sd td).1)
    ∧ (∀ (env : Env) (p q o td : List Char) (b : Bool),
      Event.rmtreeAttempt env.rmtreeOk ∈ (create_python_bundler env p q o td).2
      ∧ (create_python_bundler { env with rmtreeOk := b } p q o td).1
          = (create_python_bundler env p q o td).1)
    ∧ (∀ (env : Env) (p q o td : List Char) (b : Bool),
      Event.rmtreeAttempt env.rmtreeOk ∈ (create_nsis_bundler env p q o td).2
      ∧ (create_nsis_bundler { env with rmtreeOk := b } p q o td).1
          = (create_nsis_bundler env p q o td).1)
    ∧ (∀ (env : Env) (ed k o : List Char) (sl : Bool) (td : List Char) (b : Bool),
      Event.rmtreeAttempt env.rmtreeOk ∈ (create_direct_nsis_installer env ed k o sl td).2
      ∧ (create_direct_nsis_installer { env with rmtreeOk := b } ed k o sl td).1
          = (create_direct_nsis_installer env ed k o sl td).1)
    ∧ (∀ (env : Env) (s ed : List Char) (c : Int),
      env.exec (cmd7zExtract ed s) = .exited c → c ≠ 0 → env.rmtreeOk = false →
      (extract_scrm_installer env s ed).1 = .error .osError) := by
  refine ⟨?_, ?_, ?_, ?_, ?_⟩
  · intro n1 n2 env sd td b
    exact ⟨by simp [silentMainWith], rfl⟩
  · intro env p q o td b
    exact ⟨by simp [create_python_bundler], rfl⟩
  · intro env p q o td b
    exact ⟨by simp [create_nsis_bundler], rfl⟩
  · intro env ed k o sl td b
    exact ⟨by simp [create_direct_nsis_installer], rfl⟩
  · intro env s ed c hE hc hrm
    have hb : (c == 0) = false := by simp [hc]
    simp [extract_scrm_installer, checkOk, hE, hb, hrm]

/-- C3: environment for the counterexample — the 7z extraction of the
first installer exits 2 and the subsequent unguarded rmtree fails. -/
def c3CEnv : Env :=
  { exec := fun c =>
      if c = cmd7zExtract (chars "/tmp/ex") (chars "scrm.exe") then .exited 2 else .exited 0,
    fileExists := fun _ => false, copyOk := fun _ => true, rmtreeOk := false,
    glob := fun _ _ => [],
    cwd := chars "/w", scriptDir := chars "/s", parentDir := chars "/p" }

/-- Counterexample for C3 as stated: in this run, the failure of the
deletion itself escalates into an uncaught OSError of the whole
extract-and-repackage operation — it is not merely logged. -/
theorem workspace_cleanup_counterexample :
    (extract_and_repackage c3CEnv (some (chars "scrm.exe"))
        (some (chars "winsdksetup.exe")) (some (chars "out.exe")) true
        (chars "/tmp/ex") (chars "/tmp/nsis")).1 = .error .osError := by
  rfl

/-- C3: environment for the amended-theorem witness. -/
def c3WEnv : Env :=
  { exec := fun c =>
      if c = cmd7zExtract (chars "/e") (chars "s.exe") then .exited 2 else .exited 0,
    fileExists := fun _ => false, copyOk := fun _ => true, rmtreeOk := false,
    glob := fun _ _ => [],
    cwd := chars "/w", scriptDir := chars "/s", parentDir := chars "/p" }

/-- Witness for the amended C3 theorem at a concrete environment. -/
theorem workspace_cleanup_amended_witness :
    (extract_scrm_installer c3WEnv (chars "s.exe") (chars "/e")).1 = .error .osError :=
  workspace_cleanup_amended.2.2.2.2 c3WEnv (chars "s.exe") (chars "/e") 2
    (by decide) (by decide) rfl

/-- Helper: a launch failure or a nonzero exit makes `check=True` raise. -/
theorem checkOk_eq_false_of_failure {r : ExecResult}
    (h : r = .launchFailure ∨ ∃ c, r = .exited c ∧ c ≠ 0) : checkOk r = false := by
  rcases h with h | ⟨c, hc, hne⟩
  · rw [h]; rfl
  · rw [hc]; simp [checkOk, hne]

/-- C7: native-installer-strategy failure is fatal with no fallback.
First conjunct: with `--nsis`, explicit inputs and makensis missing or
exiting nonzero, the bundler main returns exit status 1 and its whole
event trace is the single makensis invocation plus the workspace cleanup
— no 7-Zip or Python-bundler step is ever attempted.  Second conjunct:
create_direct_nsis_installer turns the same makensis failures into a
None result.  Third conjunct: the repackage driver then returns exit
status 1. -/
theorem nsis_failure_fatal_no_fallback :
    (∀ (env : Env) (s k o td : List Char),
      (env.exec (cmdMakensis td) = .launchFailure
        ∨ ∃ c, env.exec (cmdMakensis td) = .exited c ∧ c ≠ 0) →
      create_bundled_main env ⟨some s, some k, some o, true⟩ td
        = (.ok 1, [.exec (cmdMakensis td), .rmtreeAttempt env.rmtreeOk]))
    ∧ (∀ (env : Env) (ed k o : List Char) (sl : Bool) (td : List Char),
      (env.exec (cmdMakensisDirect td) = .launchFailure
        ∨ ∃ c, env.exec (cmdMakensisDirect td) = .exited c ∧ c ≠ 0) →
      (create_direct_nsis_installer env ed k o sl td).1 = .ok none)
    ∧ (∀ (env : Env) (s k o : List Char) (sl : Bool) (ed td : List Char),
      env.exec (cmd7zExtract ed s) = .exited 0 →
      env.fileExists (pathJoin (pathJoin ed (chars "$PLUGINSDIR")) (chars "app-64.7z")) = false →
      (env.exec (cmdMakensisDirect td) = .launchFailure
        ∨ ∃ c, env.exec (cmdMakensisDirect td) = .exited c ∧ c ≠ 0) →
      (extract_and_repackage env (some s) (some k) (some o) sl ed td).1 = .ok 1) := by
  refine ⟨?_, ?_, ?_⟩
  · intro env s k o td h
    have hM := checkOk_eq_false_of_failure h
    simp [create_bundled_main, find_installers, create_nsis_bundler, hM]
  · intro env ed k o sl td h
    have hM := checkOk_eq_false_of_failure h
    simp [create_direct_nsis_installer, hM]
  · intro env s k o sl ed td h0 hA h
    have hM := checkOk_eq_false_of_failure h
    have hz : checkOk (.exited 0) = true := rfl
    simp [extract_and_repackage, find_installers, extract_scrm_installer,
          create_direct_nsis_installer, h0, hA, hM, hz]

/-- C7: environment for the witness — makensis is absent for the wrapper
build and exits 3 for the direct build; the 7z extraction succeeds. -/
def c7Env : Env :=
  { exec := fun c =>
      if c = cmdMakensis (chars "/t") then .launchFailure
      else if c = cmdMakensisDirect (chars "/n") then .exited 3
      else .exited 0,
    fileExists := fun _ => false, copyOk := fun _ => true, rmtreeOk := true,
    glob := fun _ _ => [],
    cwd := chars "/w", scriptDir := chars "/s", parentDir := chars "/p" }

/-- Witness for C7 at concrete environments: the bundler main fails with
exit 1 having attempted only makensis, and the repackage driver fails
with exit 1 when its makensis exits nonzero. -/
theorem nsis_failure_fatal_no_fallback_witness :
    create_bundled_main c7Env
        ⟨some (chars "a.exe"), some (chars "b.exe"), some (chars "o.exe"), true⟩ (chars "/t")
      = (.ok 1, [.exec (cmdMakensis (chars "/t")), .rmtreeAttempt true])
    ∧ (extract_and_repackage c7Env (some (chars "a.exe")) (some (chars "b.exe"))
        (some (chars "o.exe")) true (chars "/e") (chars "/n")).1 = .ok 1 :=
  ⟨nsis_failure_fatal_no_fallback.1 c7Env (chars "a.exe") (chars "b.exe")
     (chars "o.exe") (chars "/t") (Or.inl (by decide)),
   nsis_failure_fatal_no_fallback.2.2 c7Env (chars "a.exe") (chars "b.exe")
     (chars "o.exe") true (chars "/e") (chars "/n") (by decide) (by decide)
     (Or.inr ⟨3, by decide, by decide⟩)⟩

end NsisRepack
